import Mathlib

/-!
Shallow embedding of the server action handlers of the invoices dashboard
(source file: the server actions module exporting createInvoice,
updateInvoice, deleteInvoice, authenticate and register).

Modelling conventions:
  - `FormData` is the list of (key, value) pairs of the submitted form;
    `FormData.get` returns the first value for a key, or `none` when the
    key is absent (the JavaScript `formData.get` returns `null` then).
  - The zod schemas are embedded field by field.  `z.coerce.number()`
    is embedded by `jsNumber`, covering JavaScript number coercion of
    `null` and of decimal numeral strings (optional sign, digits, one
    optional decimal point); other numeral forms are out of scope.
    The coerced value is a rational; every value the claims touch is
    exact in both the rational and the JavaScript double semantics.
  - External effects (SQL statements, cache invalidation, redirect,
    console logging, bcrypt hashing) are recorded in an ordered trace of
    `Effect`s.  Whether an awaited SQL statement throws is an input flag
    to the handler; `redirect` ends the handler, so a handler result of
    `none` means the run ended in the redirect that its trace records.
  - The users table is carried explicitly by `register` as a list of
    rows, so that "no insert happened" is visible as table equality.
-/

/-- A submitted form: ordered (key, value) pairs. -/
def FormData : Type := List (String × String)

/-- The JavaScript formData.get: first value bound to the key, else null. -/
def FormData.get (fd : FormData) (k : String) : Option String :=
  (List.find? (fun p => p.1 = k) fd).map (fun p => p.2)

/-- Numeric value of a list of decimal digit characters, most significant first. -/
def digitsToNat (l : List Char) : Nat :=
  l.foldl (fun n c => 10 * n + (c.toNat - 48)) 0

/-- Whether every character of the list is a decimal digit. -/
def allDigits (l : List Char) : Bool :=
  l.all (fun c => c.isDigit)

/-- The digits of an unsigned decimal numeral with one optional decimal
point, as (integer part value, fraction value, fraction digit count):
"10", "10.50", ".5", "5." parse; "", ".", "1.2.3", "a" do not. -/
def parseUnsignedDecimal (l : List Char) : Option (Nat × Nat × Nat) :=
  let p := l.span (fun c => c ≠ '.')
  match p.2 with
  | [] =>
      if p.1 ≠ [] && allDigits p.1 then some (digitsToNat p.1, 0, 0) else none
  | _ :: b =>
      if (p.1 ≠ [] || b ≠ []) && allDigits p.1 && allDigits b then
        some (digitsToNat p.1, digitsToNat b, b.length)
      else none

/-- Signed decimal numeral: an optional leading + or - sign; the flag is
true for a negated value. -/
def parseSignedDecimal (l : List Char) : Option (Bool × Nat × Nat × Nat) :=
  match l with
  | '-' :: rest => (parseUnsignedDecimal rest).map (fun p => (true, p))
  | '+' :: rest => (parseUnsignedDecimal rest).map (fun p => (false, p))
  | _ => (parseUnsignedDecimal l).map (fun p => (false, p))

/-- Leading and trailing whitespace removed, as JavaScript number coercion
trims its string input. -/
def charTrim (l : List Char) : List Char :=
  ((l.dropWhile Char.isWhitespace).reverse.dropWhile Char.isWhitespace).reverse

/-- The rational value of a parsed signed decimal numeral. -/
def ratOfParts (p : Bool × Nat × Nat × Nat) : ℚ :=
  let v : ℚ := (p.2.1 : ℚ) + (p.2.2.1 : ℚ) / (10 : ℚ) ^ p.2.2.2
  if p.1 then -v else v

/-- JavaScript Number coercion of a form value, in parsed-digit form:
Number(null) = 0 and Number("") = 0 (after trimming), otherwise the signed
decimal numeral; `none` stands for NaN. -/
def jsNumberParts (v : Option String) : Option (Bool × Nat × Nat × Nat) :=
  match v with
  | none => some (false, 0, 0, 0)
  | some s =>
      match charTrim s.data with
      | [] => some (false, 0, 0, 0)
      | t => parseSignedDecimal t

/-- JavaScript Number coercion as z.coerce.number() applies it to a form
value, covering null and decimal numeral strings (other numeral forms are
out of scope); `none` stands for NaN.  Every value the claims touch is
exact both here and in the JavaScript double semantics. -/
def jsNumber (v : Option String) : Option ℚ :=
  (jsNumberParts v).map ratOfParts

/-- Per-field error lists of a failed invoice-form parse, as
error.flatten().fieldErrors exposes them. -/
structure FieldErrors where
  customerId : List String
  amount : List String
  status : List String
deriving DecidableEq, Repr

/-- The validated data of the invoice form (CreateInvoice = UpdateInvoice =
FormSchema without id and date). -/
structure ValidatedInvoice where
  customerId : String
  amount : ℚ
  status : String
deriving DecidableEq, Repr

/-- The error list of one field check: empty when the check succeeded. -/
def errOf {α : Type} : Except (List String) α → List String
  | .error e => e
  | .ok _ => []

/-- FormSchema.customerId: z.string with a custom invalid type message.
Any string (the empty string included) passes; only a missing value fails. -/
def checkCustomerId (v : Option String) : Except (List String) String :=
  match v with
  | some s => .ok s
  | none => .error ["Please select a customer."]

/-- FormSchema.amount: z.coerce.number().gt(0, message).  NaN fails the
number check; a number not greater than 0 fails the gt refinement. -/
def checkAmount (v : Option String) : Except (List String) ℚ :=
  match jsNumber v with
  | none => .error ["Expected number, received nan"]
  | some q => if 0 < q then .ok q else .error ["Please enter an amount greater than $0."]

/-- FormSchema.status: z.enum of pending and paid, with a custom invalid
type message for a missing value. -/
def checkStatus (v : Option String) : Except (List String) String :=
  match v with
  | none => .error ["Please select an invoice status."]
  | some s => if s = "pending" || s = "paid" then .ok s else .error ["Invalid enum value"]

/-- CreateInvoice.safeParse / UpdateInvoice.safeParse of the three extracted
form fields: all three checks run, and on any failure the per-field error
lists are collected. -/
def parseInvoiceForm (fd : FormData) : Except FieldErrors ValidatedInvoice :=
  match checkCustomerId (fd.get "customerId"),
        checkAmount (fd.get "amount"),
        checkStatus (fd.get "status") with
  | .ok c, .ok a, .ok s => .ok ⟨c, a, s⟩
  | rc, ra, rs => .error ⟨errOf rc, errOf ra, errOf rs⟩

/-- One recorded external effect of a handler run, in order. -/
inductive Effect where
  | sqlInsertInvoice (customerId : String) (amount : ℚ) (status : String) (date : String)
  | sqlUpdateInvoice (id : String) (customerId : String) (amount : ℚ) (status : String)
  | sqlDeleteInvoice (id : String)
  | sqlSelectUserByEmail (email : String)
  | sqlInsertUser (name : String) (email : String) (hashedPassword : String)
  | revalidatePath (path : String)
  | redirectTo (path : String)
  | consoleLog
  | consoleError
  | bcryptHash (password : String) (cost : Nat)
deriving DecidableEq, Repr

/-- Whether an effect is a statement issued to the SQL layer. -/
def Effect.isSql : Effect → Bool
  | .sqlInsertInvoice _ _ _ _ => true
  | .sqlUpdateInvoice _ _ _ _ => true
  | .sqlDeleteInvoice _ => true
  | .sqlSelectUserByEmail _ => true
  | .sqlInsertUser _ _ _ => true
  | _ => false

/-- Whether an effect is a cache invalidation. -/
def Effect.isRevalidate : Effect → Bool
  | .revalidatePath _ => true
  | _ => false

/-- The State payload the invoice actions return on failure. -/
structure State where
  errors : Option FieldErrors
  message : Option String
deriving DecidableEq, Repr

/-- createInvoice.  `today` is the current day in ISO calendar-date form
(new Date().toISOString().split("T")[0]); `dbFails` tells whether the
awaited INSERT throws.  Result `none` means the run ended in the redirect
recorded in the trace; `some st` is the returned State. -/
def createInvoice (today : String) (dbFails : Bool) (fd : FormData) :
    Option State × List Effect :=
  match parseInvoiceForm fd with
  | .error fe =>
      (some { errors := some fe, message := some "Missing Fields. Failed to create Invoice." }, [])
  | .ok v =>
      let amountInCents := v.amount * 100
      let ins := Effect.sqlInsertInvoice v.customerId amountInCents v.status today
      if dbFails then
        (some { errors := none, message := some "Database Error: Failed to Create Invoice." }, [ins])
      else
        (none, [ins, .revalidatePath "/dashboard/invoices", .redirectTo "/dashboard/invoices"])

/-- updateInvoice: same validation; on success issues the UPDATE bound to
the out-of-band id, then invalidates and redirects. -/
def updateInvoice (id : String) (dbFails : Bool) (fd : FormData) :
    Option State × List Effect :=
  match parseInvoiceForm fd with
  | .error fe =>
      (some { errors := some fe, message := some "Missing Fields. Failed to update Invoice." }, [])
  | .ok v =>
      let amountInCents := v.amount * 100
      let upd := Effect.sqlUpdateInvoice id v.customerId amountInCents v.status
      if dbFails then
        (some { errors := none, message := some "Database Error: Failed to Update Invoice." }, [upd])
      else
        (none, [upd, .revalidatePath "/dashboard/invoices", .redirectTo "/dashboard/invoices"])

/-- A JavaScript exception value that is not an AuthError. -/
structure JsError where
  message : String
deriving DecidableEq, Repr

/-- deleteInvoice: try DELETE then revalidate, catch logs and swallows.
The result type says the handler could raise a JsError; it never does. -/
def deleteInvoice (dbFails : Bool) (id : String) :
    Except JsError Unit × List Effect :=
  if dbFails then
    (.ok (), [.sqlDeleteInvoice id, .consoleLog])
  else
    (.ok (), [.sqlDeleteInvoice id, .revalidatePath "/dashboard/invoices"])

/-- What the awaited signIn call does on one run: it returns, throws an
AuthError carrying its type discriminant, or throws some other error. -/
inductive SignInOutcome where
  | success
  | authError (type : String)
  | otherError (e : JsError)
deriving DecidableEq, Repr

/-- authenticate: an AuthError is mapped by its type to one of two strings,
any other thrown error is re-raised, success returns undefined (`none`). -/
def authenticate (o : SignInOutcome) : Except JsError (Option String) :=
  match o with
  | .success => .ok none
  | .authError t =>
      if t = "CredentialsSignin" then .ok (some "Invalid credentials.")
      else .ok (some "Something went wrong.")
  | .otherError e => .error e

/-- Whether a character may occur in the local part of an email address
under the zod email pattern (alphanumerics, underscore, apostrophe, plus,
minus, dot; 39 is the apostrophe code point). -/
def isEmailLocalChar (c : Char) : Bool :=
  c.isAlphanum || c = '_' || c.toNat = 39 || c = '+' || c = '-' || c = '.'

/-- Whether a character may end the local part (no dot just before the @). -/
def isEmailLocalEndChar (c : Char) : Bool :=
  c.isAlphanum || c = '_' || c = '+' || c = '-'

/-- Whether the list contains two consecutive dots. -/
def hasDoubleDot : List Char → Bool
  | [] => false
  | [_] => false
  | c1 :: c2 :: rest => (c1 = '.' && c2 = '.') || hasDoubleDot (c2 :: rest)

/-- Split a character list at every occurrence of the separator; like
String.splitOn for a one-character separator. -/
def splitOnChar (sep : Char) : List Char → List (List Char)
  | [] => [[]]
  | c :: rest =>
      match splitOnChar sep rest with
      | [] => if c = sep then [[], []] else [[c]]
      | h :: t => if c = sep then [] :: h :: t else (c :: h) :: t

/-- The local part before the @: nonempty, allowed characters, and its last
character is not a dot. -/
def emailLocalOk (l : List Char) : Bool :=
  match l.reverse with
  | [] => false
  | c :: rest => isEmailLocalEndChar c && rest.all isEmailLocalChar

/-- A domain label: nonempty, starts alphanumeric, then alphanumerics or
hyphens. -/
def emailLabelOk (l : List Char) : Bool :=
  match l with
  | [] => false
  | c :: rest => c.isAlphanum && rest.all (fun d => d.isAlphanum || d = '-')

/-- The top-level part: at least two characters, letters only. -/
def emailTldOk (l : List Char) : Bool :=
  l.length ≥ 2 && l.all (fun c => c.isAlpha)

/-- The domain after the @: one or more dot-separated labels then a
top-level part. -/
def emailDomainOk (d : List Char) : Bool :=
  match (splitOnChar '.' d).reverse with
  | [] => false
  | tld :: labels => labels ≠ [] && labels.all emailLabelOk && emailTldOk tld

/-- z.string().email(): the zod email pattern, embedded as: exactly one @,
a well-formed local part and domain, not starting with a dot, and no two
consecutive dots anywhere. -/
def emailValid (s : String) : Bool :=
  match splitOnChar '@' s.data with
  | [local_, domain] =>
      emailLocalOk local_ && emailDomainOk domain &&
      (match s.data with
       | '.' :: _ => false
       | _ => true) &&
      !hasDoubleDot s.data
  | _ => false

/-- The validated data of the registration form. -/
structure RegisterData where
  name : String
  email : String
  password : String
deriving DecidableEq, Repr

/-- RegisterFormSchema.name: z.string().min(1). -/
def checkName (v : Option String) : Bool :=
  match v with
  | some s => s.length ≥ 1
  | none => false

/-- RegisterFormSchema.email: z.string().email(). -/
def checkEmail (v : Option String) : Bool :=
  match v with
  | some s => emailValid s
  | none => false

/-- RegisterFormSchema.password: z.string().min(6). -/
def checkPassword (v : Option String) : Bool :=
  match v with
  | some s => s.length ≥ 6
  | none => false

/-- RegisterFormSchema.safeParse of the three extracted fields; register
only consumes success or failure, not the per-field messages. -/
def parseRegisterForm (fd : FormData) : Except Unit RegisterData :=
  match fd.get "name", fd.get "email", fd.get "password" with
  | some n, some e, some p =>
      if checkName (some n) && checkEmail (some e) && checkPassword (some p) then
        .ok ⟨n, e, p⟩
      else .error ()
  | _, _, _ => .error ()

/-- A row of the users table as register touches it. -/
structure UserRow where
  name : String
  email : String
  password : String
deriving DecidableEq, Repr

/-- register.  `users` is the users table; `selectFails` and `insertFails`
tell whether the respective awaited SQL statement throws; `bhash` stands
for bcryptjs.hash (salted, so an opaque function of password and cost).
Result: the returned message (`none` means the run ended in the redirect
recorded in the trace), the users table after the run, and the trace. -/
def register (users : List UserRow) (selectFails insertFails : Bool)
    (bhash : String → Nat → String) (fd : FormData) :
    Option String × List UserRow × List Effect :=
  match parseRegisterForm fd with
  | .error _ => (some "Missing Fields. Failed to Register.", users, [])
  | .ok v =>
      if selectFails then
        (some "Database Error: Failed to register.", users,
          [.sqlSelectUserByEmail v.email, .consoleError])
      else if (users.filter (fun u => u.email = v.email)).length > 0 then
        (some "User with this email already exists.", users,
          [.sqlSelectUserByEmail v.email])
      else
        let hashed := bhash v.password 10
        if insertFails then
          (some "Database Error: Failed to register.", users,
            [.sqlSelectUserByEmail v.email, .bcryptHash v.password 10,
             .sqlInsertUser v.name v.email hashed, .consoleError])
        else
          (none, users ++ [⟨v.name, v.email, hashed⟩],
            [.sqlSelectUserByEmail v.email, .bcryptHash v.password 10,
             .sqlInsertUser v.name v.email hashed, .redirectTo "/login"])

/-! Shared lemmas about the embedded validation layer. -/

theorem jsNumber_of_parts (v : Option String) (p : Bool × Nat × Nat × Nat)
    (h : jsNumberParts v = some p) : jsNumber v = some (ratOfParts p) := by
  rw [jsNumber, h]; rfl

theorem checkAmount_error_nan (v : Option String) (h : jsNumber v = none) :
    checkAmount v = .error ["Expected number, received nan"] := by
  simp [checkAmount, h]

theorem checkAmount_error_nonpos (v : Option String) (q : ℚ)
    (h : jsNumber v = some q) (hq : q ≤ 0) :
    checkAmount v = .error ["Please enter an amount greater than $0."] := by
  simp [checkAmount, h, if_neg (not_lt.mpr hq)]

theorem parseInvoiceForm_amount_error (fd : FormData) (m : List String)
    (h : checkAmount (fd.get "amount") = .error m) :
    ∃ fe : FieldErrors, parseInvoiceForm fd = .error fe ∧ fe.amount = m := by
  unfold parseInvoiceForm
  rcases hc : checkCustomerId (fd.get "customerId") with c | c <;>
    rcases hs : checkStatus (fd.get "status") with s | s <;>
      simp [h, errOf]

theorem parseInvoiceForm_status_error (fd : FormData) (m : List String)
    (h : checkStatus (fd.get "status") = .error m) :
    ∃ fe : FieldErrors, parseInvoiceForm fd = .error fe ∧ fe.status = m := by
  unfold parseInvoiceForm
  rcases hc : checkCustomerId (fd.get "customerId") with c | c <;>
    rcases ha : checkAmount (fd.get "amount") with a | a <;>
      simp [h, errOf]

theorem parseInvoiceForm_customerId_error (fd : FormData) (m : List String)
    (h : checkCustomerId (fd.get "customerId") = .error m) :
    ∃ fe : FieldErrors, parseInvoiceForm fd = .error fe ∧ fe.customerId = m := by
  unfold parseInvoiceForm
  rcases ha : checkAmount (fd.get "amount") with a | a <;>
    rcases hs : checkStatus (fd.get "status") with s | s <;>
      simp [h, errOf]

theorem createInvoice_of_parse_error (today : String) (dbFails : Bool)
    (fd : FormData) (fe : FieldErrors) (h : parseInvoiceForm fd = .error fe) :
    createInvoice today dbFails fd =
      (some { errors := some fe,
              message := some "Missing Fields. Failed to create Invoice." }, []) := by
  simp [createInvoice, h]

theorem updateInvoice_of_parse_error (id : String) (dbFails : Bool)
    (fd : FormData) (fe : FieldErrors) (h : parseInvoiceForm fd = .error fe) :
    updateInvoice id dbFails fd =
      (some { errors := some fe,
              message := some "Missing Fields. Failed to update Invoice." }, []) := by
  simp [updateInvoice, h]

theorem parseInvoiceForm_c1_valid :
    parseInvoiceForm [("customerId", "c1"), ("amount", "10.50"), ("status", "paid")] =
      .ok ⟨"c1", 21 / 2, "paid"⟩ := by
  have ha : checkAmount (some "10.50") = .ok (21 / 2) := by
    rw [checkAmount, jsNumber_of_parts (some "10.50") (false, 10, 50, 2) (by decide)]
    norm_num [ratOfParts]
  rw [parseInvoiceForm]
  rw [show FormData.get [("customerId", "c1"), ("amount", "10.50"), ("status", "paid")]
        "amount" = some "10.50" from rfl]
  rw [ha]
  rfl

/-- C1: on the valid input (customerId c1, amount 10.50, status paid) and a
non-failing INSERT, createInvoice runs to the redirect, the inserted row
carries amount 1050 (the validated amount times 100) and the current day as
its date, and the trace holds exactly one invalidation of the invoices-list
path and exactly one redirect to it. -/
theorem createInvoice_c1_persists_1050_one_revalidate_one_redirect (today : String) :
    createInvoice today false [("customerId", "c1"), ("amount", "10.50"), ("status", "paid")] =
      (none, [Effect.sqlInsertInvoice "c1" 1050 "paid" today,
              Effect.revalidatePath "/dashboard/invoices",
              Effect.redirectTo "/dashboard/invoices"]) ∧
    (createInvoice today false
        [("customerId", "c1"), ("amount", "10.50"), ("status", "paid")]).2.count
      (Effect.revalidatePath "/dashboard/invoices") = 1 ∧
    (createInvoice today false
        [("customerId", "c1"), ("amount", "10.50"), ("status", "paid")]).2.count
      (Effect.redirectTo "/dashboard/invoices") = 1 := by
  have he : createInvoice today false
      [("customerId", "c1"), ("amount", "10.50"), ("status", "paid")] =
      (none, [Effect.sqlInsertInvoice "c1" 1050 "paid" today,
              Effect.revalidatePath "/dashboard/invoices",
              Effect.redirectTo "/dashboard/invoices"]) := by
    rw [createInvoice, parseInvoiceForm_c1_valid]
    norm_num
  refine ⟨he, ?_, ?_⟩ <;> rw [he] <;> simp [List.count_cons]

/-- C2: an amount that coerces to NaN or to a value not greater than zero
makes both createInvoice and updateInvoice return a State with an error on
the amount field, and no SQL statement is issued (the trace is empty). -/
theorem invoice_amount_invalid_rejects_without_sql (today id : String)
    (dbFails : Bool) (fd : FormData)
    (h : jsNumber (fd.get "amount") = none ∨
         ∃ q : ℚ, jsNumber (fd.get "amount") = some q ∧ q ≤ 0) :
    (∃ fe : FieldErrors, (createInvoice today dbFails fd).1 =
        some { errors := some fe,
               message := some "Missing Fields. Failed to create Invoice." } ∧
        fe.amount ≠ []) ∧
    (createInvoice today dbFails fd).2 = [] ∧
    (∃ fe : FieldErrors, (updateInvoice id dbFails fd).1 =
        some { errors := some fe,
               message := some "Missing Fields. Failed to update Invoice." } ∧
        fe.amount ≠ []) ∧
    (updateInvoice id dbFails fd).2 = [] := by
  have hm : ∃ m, checkAmount (fd.get "amount") = .error m ∧ m ≠ [] := by
    rcases h with h | ⟨q, hq, hq0⟩
    · exact ⟨_, checkAmount_error_nan _ h, by simp⟩
    · exact ⟨_, checkAmount_error_nonpos _ _ hq hq0, by simp⟩
  obtain ⟨m, hm, hmne⟩ := hm
  obtain ⟨fe, hfe, hfa⟩ := parseInvoiceForm_amount_error fd m hm
  refine ⟨⟨fe, ?_, ?_⟩, ?_, ⟨fe, ?_, ?_⟩, ?_⟩
  · rw [createInvoice_of_parse_error today dbFails fd fe hfe]
  · rw [hfa]; exact hmne
  · rw [createInvoice_of_parse_error today dbFails fd fe hfe]
  · rw [updateInvoice_of_parse_error id dbFails fd fe hfe]
  · rw [hfa]; exact hmne
  · rw [updateInvoice_of_parse_error id dbFails fd fe hfe]

/-- C2 witness: the amount "abc" coerces to NaN; at a concrete input both
handlers reject with an amount error and an empty trace. -/
theorem invoice_amount_invalid_rejects_without_sql_witness :
    (∃ fe : FieldErrors,
        (createInvoice "2024-01-01" false
            [("customerId", "c1"), ("amount", "abc"), ("status", "paid")]).1 =
          some { errors := some fe,
                 message := some "Missing Fields. Failed to create Invoice." } ∧
        fe.amount ≠ []) ∧
    (createInvoice "2024-01-01" false
        [("customerId", "c1"), ("amount", "abc"), ("status", "paid")]).2 = [] ∧
    (∃ fe : FieldErrors,
        (updateInvoice "i1" false
            [("customerId", "c1"), ("amount", "abc"), ("status", "paid")]).1 =
          some { errors := some fe,
                 message := some "Missing Fields. Failed to update Invoice." } ∧
        fe.amount ≠ []) ∧
    (updateInvoice "i1" false
        [("customerId", "c1"), ("amount", "abc"), ("status", "paid")]).2 = [] :=
  invoice_amount_invalid_rejects_without_sql "2024-01-01" "i1" false
    [("customerId", "c1"), ("amount", "abc"), ("status", "paid")]
    (Or.inl (by decide))

/-- C3: a status that is neither pending nor paid (a missing status
included) makes both createInvoice and updateInvoice return a State with
an error on the status field, and no SQL statement is issued. -/
theorem invoice_status_invalid_rejects_without_sql (today id : String)
    (dbFails : Bool) (fd : FormData)
    (h : ∀ s : String, fd.get "status" = some s → s ≠ "pending" ∧ s ≠ "paid") :
    (∃ fe : FieldErrors, (createInvoice today dbFails fd).1 =
        some { errors := some fe,
               message := some "Missing Fields. Failed to create Invoice." } ∧
        fe.status ≠ []) ∧
    (createInvoice today dbFails fd).2 = [] ∧
    (∃ fe : FieldErrors, (updateInvoice id dbFails fd).1 =
        some { errors := some fe,
               message := some "Missing Fields. Failed to update Invoice." } ∧
        fe.status ≠ []) ∧
    (updateInvoice id dbFails fd).2 = [] := by
  have hm : ∃ m, checkStatus (fd.get "status") = .error m ∧ m ≠ [] := by
    rcases hv : fd.get "status" with _ | s
    · exact ⟨_, rfl, by simp⟩
    · have hs := h s hv
      exact ⟨["Invalid enum value"], by simp [checkStatus, hv, hs.1, hs.2], by simp⟩
  obtain ⟨m, hm, hmne⟩ := hm
  obtain ⟨fe, hfe, hfs⟩ := parseInvoiceForm_status_error fd m hm
  refine ⟨⟨fe, ?_, ?_⟩, ?_, ⟨fe, ?_, ?_⟩, ?_⟩
  · rw [createInvoice_of_parse_error today dbFails fd fe hfe]
  · rw [hfs]; exact hmne
  · rw [createInvoice_of_parse_error today dbFails fd fe hfe]
  · rw [updateInvoice_of_parse_error id dbFails fd fe hfe]
  · rw [hfs]; exact hmne
  · rw [updateInvoice_of_parse_error id dbFails fd fe hfe]

/-- C3 witness: the status "overdue" is outside the enum; at a concrete
input both handlers reject with a status error and an empty trace. -/
theorem invoice_status_invalid_rejects_without_sql_witness :
    (∃ fe : FieldErrors,
        (createInvoice "2024-01-01" false
            [("customerId", "c1"), ("amount", "5"), ("status", "overdue")]).1 =
          some { errors := some fe,
                 message := some "Missing Fields. Failed to create Invoice." } ∧
        fe.status ≠ []) ∧
    (createInvoice "2024-01-01" false
        [("customerId", "c1"), ("amount", "5"), ("status", "overdue")]).2 = [] ∧
    (∃ fe : FieldErrors,
        (updateInvoice "i1" false
            [("customerId", "c1"), ("amount", "5"), ("status", "overdue")]).1 =
          some { errors := some fe,
                 message := some "Missing Fields. Failed to update Invoice." } ∧
        fe.status ≠ []) ∧
    (updateInvoice "i1" false
        [("customerId", "c1"), ("amount", "5"), ("status", "overdue")]).2 = [] :=
  invoice_status_invalid_rejects_without_sql "2024-01-01" "i1" false
    [("customerId", "c1"), ("amount", "5"), ("status", "overdue")]
    (by
      intro s hs
      have : s = "overdue" := by
        have h0 : FormData.get
            [("customerId", "c1"), ("amount", "5"), ("status", "overdue")]
            "status" = some "overdue" := by decide
        rw [h0] at hs
        exact (Option.some_inj.mp hs).symm
      subst this
      decide)

/-- C4 counterexample: with customerId the empty string (and a valid amount
and status) createInvoice does not fail validation: it inserts a row with
the empty customer reference and runs to the redirect. -/
theorem createInvoice_empty_customerId_accepted :
    createInvoice "2024-01-01" false
        [("customerId", ""), ("amount", "5"), ("status", "paid")] =
      (none, [Effect.sqlInsertInvoice "" 500 "paid" "2024-01-01",
              Effect.revalidatePath "/dashboard/invoices",
              Effect.redirectTo "/dashboard/invoices"]) := by
  have ha : checkAmount (some "5") = .ok 5 := by
    rw [checkAmount, jsNumber_of_parts (some "5") (false, 5, 0, 0) (by decide)]
    norm_num [ratOfParts]
  have hp : parseInvoiceForm [("customerId", ""), ("amount", "5"), ("status", "paid")] =
      .ok ⟨"", 5, "paid"⟩ := by
    rw [parseInvoiceForm]
    rw [show FormData.get [("customerId", ""), ("amount", "5"), ("status", "paid")]
          "amount" = some "5" from rfl]
    rw [ha]
    rfl
  rw [createInvoice, hp]
  norm_num

/-- C4 amended: the schema only requires customerId to be present as a
string; when the customerId field is missing, validation fails with the
per-field message and no row is inserted, but the empty string passes. -/
theorem createInvoice_missing_customerId_rejected (today : String)
    (dbFails : Bool) (fd : FormData) (h : fd.get "customerId" = none) :
    ∃ fe : FieldErrors, (createInvoice today dbFails fd).1 =
        some { errors := some fe,
               message := some "Missing Fields. Failed to create Invoice." } ∧
      fe.customerId = ["Please select a customer."] ∧
      (createInvoice today dbFails fd).2 = [] := by
  have hc : checkCustomerId (fd.get "customerId") = .error ["Please select a customer."] := by
    rw [h]; rfl
  obtain ⟨fe, hfe, hfc⟩ := parseInvoiceForm_customerId_error fd _ hc
  refine ⟨fe, ?_, hfc, ?_⟩
  · rw [createInvoice_of_parse_error today dbFails fd fe hfe]
  · rw [createInvoice_of_parse_error today dbFails fd fe hfe]

/-- C4 witness: a form with no customerId entry is rejected with the
per-field message and an empty trace. -/
theorem createInvoice_missing_customerId_rejected_witness :
    ∃ fe : FieldErrors,
      (createInvoice "2024-01-01" false [("amount", "5"), ("status", "paid")]).1 =
        some { errors := some fe,
               message := some "Missing Fields. Failed to create Invoice." } ∧
      fe.customerId = ["Please select a customer."] ∧
      (createInvoice "2024-01-01" false [("amount", "5"), ("status", "paid")]).2 = [] :=
  createInvoice_missing_customerId_rejected "2024-01-01" false
    [("amount", "5"), ("status", "paid")] (by decide)

/-- C5: when the submitted registration passes validation and its email is
already in the users table, register returns the already-exists message,
leaves the table unchanged, and issues only the existence SELECT (no
insert, no hash). -/
theorem register_existing_email_no_insert (users : List UserRow)
    (insertFails : Bool) (bhash : String → Nat → String) (fd : FormData)
    (v : RegisterData) (hparse : parseRegisterForm fd = .ok v)
    (hex : ∃ u ∈ users, u.email = v.email) :
    register users false insertFails bhash fd =
      (some "User with this email already exists.", users,
       [.sqlSelectUserByEmail v.email]) := by
  obtain ⟨u, hu, he⟩ := hex
  have hmem : u ∈ users.filter (fun w => w.email = v.email) :=
    List.mem_filter.mpr ⟨hu, by simp [he]⟩
  have hpos : 0 < (users.filter (fun w => w.email = v.email)).length :=
    List.length_pos_of_mem hmem
  unfold register
  rw [hparse]
  simp [hpos]

/-- C5 witness: registering a second time with the email of the one stored
user returns the already-exists message and the table of one row. -/
theorem register_existing_email_no_insert_witness :
    register [⟨"Ann", "a@b.co", "H"⟩] false false (fun _ _ => "H2")
        [("name", "Ann"), ("email", "a@b.co"), ("password", "secret")] =
      (some "User with this email already exists.", [⟨"Ann", "a@b.co", "H"⟩],
       [.sqlSelectUserByEmail "a@b.co"]) :=
  register_existing_email_no_insert [⟨"Ann", "a@b.co", "H"⟩] false
    (fun _ _ => "H2")
    [("name", "Ann"), ("email", "a@b.co"), ("password", "secret")]
    ⟨"Ann", "a@b.co", "secret"⟩ rfl (by decide)

/-- C6: a password of length 5 is rejected by the schema with no database
access at all; a password of length 6 with otherwise valid fields and a
fresh email reaches the bcrypt hash at cost 10 and the user INSERT, and
the inserted row stores the hashed password. -/
theorem register_password_length_gate :
    (∀ (users : List UserRow) (selectFails insertFails : Bool)
        (bhash : String → Nat → String) (fd : FormData) (p : String),
        fd.get "password" = some p → p.length = 5 →
        register users selectFails insertFails bhash fd =
          (some "Missing Fields. Failed to Register.", users, [])) ∧
    (∀ (users : List UserRow) (bhash : String → Nat → String) (fd : FormData)
        (n e p : String),
        fd.get "name" = some n → 1 ≤ n.length →
        fd.get "email" = some e → emailValid e = true →
        fd.get "password" = some p → p.length = 6 →
        (∀ u ∈ users, u.email ≠ e) →
        register users false false bhash fd =
          (none, users ++ [⟨n, e, bhash p 10⟩],
           [.sqlSelectUserByEmail e, .bcryptHash p 10,
            .sqlInsertUser n e (bhash p 10), .redirectTo "/login"])) := by
  constructor
  · intro users selectFails insertFails bhash fd p hp hlen
    have hparse : parseRegisterForm fd = .error () := by
      rcases hn : fd.get "name" with _ | n
      · simp [parseRegisterForm, hn]
      · rcases he : fd.get "email" with _ | e
        · simp [parseRegisterForm, hn, he]
        · simp [parseRegisterForm, hn, he, hp, checkPassword, hlen]
    simp [register, hparse]
  · intro users bhash fd n e p hn hnlen he hev hp hplen huniq
    have hparse : parseRegisterForm fd = .ok ⟨n, e, p⟩ := by
      simp [parseRegisterForm, hn, he, hp, checkName, checkEmail, checkPassword,
        hnlen, hev, hplen]
    have hfilter : users.filter (fun u => u.email = e) = [] := by
      rw [List.filter_eq_nil_iff]
      intro u hu
      simp [huniq u hu]
    unfold register
    rw [hparse]
    simp [hfilter]

/-- C6 witness: with the empty table, password "five5" is rejected with an
empty trace, and password "sixsix" leads to hash, insert and redirect. -/
theorem register_password_length_gate_witness :
    register [] false false (fun _ _ => "H")
        [("name", "Ann"), ("email", "a@b.co"), ("password", "five5")] =
      (some "Missing Fields. Failed to Register.", [], []) ∧
    register [] false false (fun _ _ => "H")
        [("name", "Ann"), ("email", "a@b.co"), ("password", "sixsix")] =
      (none, [⟨"Ann", "a@b.co", "H"⟩],
       [.sqlSelectUserByEmail "a@b.co", .bcryptHash "sixsix" 10,
        .sqlInsertUser "Ann" "a@b.co" "H", .redirectTo "/login"]) :=
  ⟨register_password_length_gate.1 [] false false (fun _ _ => "H")
      [("name", "Ann"), ("email", "a@b.co"), ("password", "five5")] "five5"
      (by decide) (by decide),
   register_password_length_gate.2 [] (fun _ _ => "H")
      [("name", "Ann"), ("email", "a@b.co"), ("password", "sixsix")]
      "Ann" "a@b.co" "sixsix"
      (by decide) (by decide) (by decide) (by decide) (by decide) (by decide)
      (by simp)⟩

/-- C7: an AuthError of type CredentialsSignin maps to exactly the string
"Invalid credentials.", any other AuthError type maps to "Something went
wrong.", and a thrown non-AuthError is re-raised unmodified. -/
theorem authenticate_error_mapping :
    authenticate (.authError "CredentialsSignin") = .ok (some "Invalid credentials.") ∧
    (∀ t : String, t ≠ "CredentialsSignin" →
        authenticate (.authError t) = .ok (some "Something went wrong.")) ∧
    (∀ e : JsError, authenticate (.otherError e) = .error e) := by
  refine ⟨rfl, ?_, fun e => rfl⟩
  intro t ht
  simp [authenticate, ht]

/-- C8: for every id and both outcomes of the DELETE statement,
deleteInvoice returns normally with no error payload; on a database error
the run only appends the log entry to its trace. -/
theorem deleteInvoice_never_surfaces_error :
    ∀ (dbFails : Bool) (id : String),
      (deleteInvoice dbFails id).1 = .ok () ∧
      (deleteInvoice true id).2 = [.sqlDeleteInvoice id, .consoleLog] := by
  intro dbFails id
  cases dbFails <;> exact ⟨rfl, rfl⟩

/-- C9: across createInvoice, updateInvoice and register, a redirect
effect occurs exactly when the run succeeded, and its path is the
invoices list for the invoice handlers and the login page for register. -/
theorem redirect_only_after_success :
    (∀ (today : String) (dbFails : Bool) (fd : FormData) (p : String),
        Effect.redirectTo p ∈ (createInvoice today dbFails fd).2 ↔
          ((createInvoice today dbFails fd).1 = none ∧ p = "/dashboard/invoices")) ∧
    (∀ (id : String) (dbFails : Bool) (fd : FormData) (p : String),
        Effect.redirectTo p ∈ (updateInvoice id dbFails fd).2 ↔
          ((updateInvoice id dbFails fd).1 = none ∧ p = "/dashboard/invoices")) ∧
    (∀ (users : List UserRow) (selectFails insertFails : Bool)
        (bhash : String → Nat → String) (fd : FormData) (p : String),
        Effect.redirectTo p ∈ (register users selectFails insertFails bhash fd).2.2 ↔
          ((register users selectFails insertFails bhash fd).1 = none ∧ p = "/login")) := by
  refine ⟨?_, ?_, ?_⟩
  · intro today dbFails fd p
    rcases hp : parseInvoiceForm fd with fe | v
    · simp [createInvoice, hp]
    · cases dbFails <;> simp [createInvoice, hp]
  · intro id dbFails fd p
    rcases hp : parseInvoiceForm fd with fe | v
    · simp [updateInvoice, hp]
    · cases dbFails <;> simp [updateInvoice, hp]
  · intro users selectFails insertFails bhash fd p
    rcases hp : parseRegisterForm fd with u | v
    · simp [register, hp]
    · cases selectFails
      · by_cases hex : 0 < (users.filter (fun u => u.email = v.email)).length
        · simp [register, hp, hex]
        · cases insertFails <;> simp [register, hp, hex]
      · simp [register, hp]

/-- C10: when the DELETE statement raises, deleteInvoice performs no cache
invalidation at all: the failing run still returns normally and its trace
holds the attempted DELETE and the log entry only. -/
theorem deleteInvoice_db_error_no_revalidate :
    ∀ id : String,
      (deleteInvoice true id).2.countP Effect.isRevalidate = 0 ∧
      (deleteInvoice true id).1 = .ok () ∧
      Effect.consoleLog ∈ (deleteInvoice true id).2 := by
  intro id
  refine ⟨?_, rfl, ?_⟩ <;> simp [deleteInvoice, Effect.isRevalidate]
